import Mathlib

/-!
Verification of the objex object-storage abstraction layer.

The Go sources are embedded shallowly:

* strings are `List Char` (Go strings are byte slices; we only ever split on
  the ASCII separator so a character list is a faithful model);
* Go's multiple return `(value, err)` becomes `Except GoErr value`;
* the shared helpers `SplitPath`, `GetStreamSize`, the minio adapter's
  `ToStandardError`, the filesystem adapter's `splitPathFS`, the driver
  registry (`Register` / `New`) and the per-driver bucket/object operations
  that the spec talks about are translated function by function;
* each backend's native client is modelled by an explicit state value
  (a list of buckets and a list of objects) together with the native error
  codes the adapters inspect (`NoSuchBucket`, `NoSuchKey`, a filesystem
  not-exist error), exactly the conditions the Go code branches on.
-/

namespace Objex

/-- The error values of the objex package (`objex.go`): the closed taxonomy
declared with `errors.New`, plus two forms the adapters produce at runtime:
`wrapped code` for the `errors.New(code)` fallthrough of the minio adapter's
`ToStandardError`, and `nativeE e` for a native client error value that an
adapter returns verbatim without normalising it. -/
inductive GoErr where
  | unknownDriver
  | invalidEndpoint
  | invalidAccessKey
  | invalidSecretKey
  | clientInit
  | bucketNotFound
  | invalidBucketName
  | objectNotFound
  | accessDenied
  | bucketNotEmpty
  | preconditionFailed
  | bucketAlreadyExists
  | invalidObjectName
  | invalidFile
  | wrapped (code : String)
  | nativeE (code : String) (msg : String)
deriving DecidableEq, Repr

/-- True exactly on the closed taxonomy kinds declared in `objex.go`
(`ErrUnknownDriver` … `ErrInvalidFile`), false on `wrapped` and `nativeE`. -/
def GoErr.isTaxonomy : GoErr → Bool
  | .wrapped _ => false
  | .nativeE _ _ => false
  | _ => true

/-- A native Go error as the minio adapter sees it: `code` is
`minio.ToErrorResponse(err).Code`, which is the empty string whenever the
error is not an S3 error response (for example a transport failure), and
`msg` is the error's message text. -/
structure NativeErr where
  code : String
  msg : String
deriving DecidableEq, Repr

/-- `ToStandardError` from the minio adapter (`src/unnamed/part_003`):
a `nil` error maps to `nil`; an error whose S3 response code is empty maps to
`nil`; the six recognised codes map to their taxonomy kinds; any other
non-empty code becomes `errors.New(code)`, modelled as `GoErr.wrapped code`. -/
def ToStandardError : Option NativeErr → Option GoErr
  | none => none
  | some e =>
    if e.code = "" then none
    else if e.code = "NoSuchBucket" then some .bucketNotFound
    else if e.code = "NoSuchKey" then some .objectNotFound
    else if e.code = "AccessDenied" then some .accessDenied
    else if e.code = "Conflict" then some .bucketNotEmpty
    else if e.code = "PreconditionFailed" then some .preconditionFailed
    else if e.code = "BucketAlreadyOwnedByYou" then some .bucketAlreadyExists
    else some (.wrapped e.code)

/-- Go's `strings.SplitN(s, sep, 2)` restricted to what `SplitPath` needs:
`none` when `sep` does not occur in `s` (Go returns the one-element slice
`[s]`), and `some (a, b)` when `s = a ++ sep :: b` with `sep` not in `a`
(Go returns the two-element slice `[a, b]`, split at the first occurrence). -/
def splitFirst (sep : Char) : List Char → Option (List Char × List Char)
  | [] => none
  | c :: rest =>
    if c = sep then some ([], rest)
    else (splitFirst sep rest).map (fun p => (c :: p.1, p.2))

/-- `SplitPath` from the objex package (`src/unnamed/part_000`): a non-empty
`currentBucket` is returned verbatim with the whole path as key; otherwise
the path is split at the first separator and the call fails with
`ErrInvalidObjectName` when there is no separator or either part is empty. -/
def SplitPath (currentBucket fullPath : List Char) :
    Except GoErr (List Char × List Char) :=
  if currentBucket ≠ [] then
    .ok (currentBucket, fullPath)
  else
    match splitFirst '/' fullPath with
    | none => .error .invalidObjectName
    | some (b, k) =>
      if b = [] ∨ k = [] then .error .invalidObjectName
      else .ok (b, k)

/-- `splitPathFS` from the filesystem adapter
(`src/drivers/filesystem/filesystem.go`): an empty name fails with
`ErrInvalidObjectName`; a non-empty bucket is returned verbatim; otherwise the
name is split at the first separator and both parts are returned without any
emptiness check; a name without separator is placed in the root bucket `"."`. -/
def splitPathFS (bucket name : List Char) :
    Except GoErr (List Char × List Char) :=
  if name = [] then .error .invalidObjectName
  else if bucket ≠ [] then .ok (bucket, name)
  else
    match splitFirst '/' name with
    | some (b, k) => .ok (b, k)
    | none => .ok (['.'], name)

theorem splitFirst_of_not_mem {sep : Char} :
    ∀ {s : List Char}, sep ∉ s → splitFirst sep s = none := by
  intro s h
  induction s with
  | nil => rfl
  | cons c rest ih =>
    have hc : ¬c = sep := fun hcs => h (hcs ▸ List.mem_cons_self c rest)
    have hrest : sep ∉ rest := fun hm => h (List.mem_cons_of_mem c hm)
    simp [splitFirst, hc, ih hrest]

theorem splitFirst_append {sep : Char} :
    ∀ {a b : List Char}, sep ∉ a → splitFirst sep (a ++ sep :: b) = some (a, b) := by
  intro a b h
  induction a with
  | nil => simp [splitFirst]
  | cons c rest ih =>
    have hc : ¬c = sep := fun hcs => h (hcs ▸ List.mem_cons_self c rest)
    have hrest : sep ∉ rest := fun hm => h (List.mem_cons_of_mem c hm)
    simp [splitFirst, hc, ih hrest]

theorem splitFirst_mem {sep : Char} :
    ∀ {s a b : List Char}, splitFirst sep s = some (a, b) →
      s = a ++ sep :: b ∧ sep ∉ a := by
  intro s
  induction s with
  | nil => intro a b h; simp [splitFirst] at h
  | cons c rest ih =>
    intro a b h
    rw [splitFirst] at h
    by_cases hc : c = sep
    · rw [if_pos hc] at h
      simp only [Option.some.injEq, Prod.mk.injEq] at h
      obtain ⟨ha, hb⟩ := h
      subst ha
      subst hb
      exact ⟨by rw [hc]; rfl, by simp⟩
    · rw [if_neg hc] at h
      rcases Option.map_eq_some'.mp h with ⟨p, hp, hpe⟩
      obtain ⟨p1, p2⟩ := p
      injection hpe with h1 h2
      subst h1
      subst h2
      obtain ⟨hrest, hmem⟩ := ih hp
      constructor
      · simp [hrest]
      · intro hm
        rcases List.mem_cons.mp hm with h1 | h2
        · exact hc h1.symm
        · exact hmem h2

/-- A seekable byte stream as `GetStreamSize` uses it: `data` is the full
contents, `pos` the current read position, and `seekEndFails` records whether
the underlying seeker's `Seek(0, io.SeekEnd)` call reports an error (the one
failure the Go code checks; the other two `Seek` calls have their errors
discarded with `_`). -/
structure SeekableStream where
  data : List Nat
  pos : Nat
  seekEndFails : Bool
deriving DecidableEq, Repr

/-- Reading a stream to exhaustion from its current position. -/
def readAll (s : SeekableStream) : List Nat :=
  s.data.drop s.pos

/-- The seekable branch of `GetStreamSize` (`src/unnamed/part_000`): record
the current position via `Seek(0, SeekCurrent)`, seek to the end (failure
yields `ErrInvalidFile`), compute `size = end - currentPos`, seek back to the
recorded position, and return the same stream handle with the size. -/
def GetStreamSize (s : SeekableStream) : Except GoErr (SeekableStream × Int) :=
  let currentPos := s.pos
  if s.seekEndFails then
    .error .invalidFile
  else
    let endPos := s.data.length
    let s1 : SeekableStream := { s with pos := endPos }
    let size : Int := (endPos : Int) - (currentPos : Int)
    let s2 : SeekableStream := { s1 with pos := currentPos }
    .ok (s2, size)

/-- A configuration value as the registry sees it: Go's `NamedConfig`
interface is a value of some backend-specific type `C` together with a
`DriverName` method, modelled as an explicit function `C → String`. -/
def DriverNameOf (C : Type) : Type := C → String

/-- The registry state: Go's `map[string]Driver` where
`Driver = func(config any) (Store, error)`, modelled as a partial map from
driver names to constructors producing a backend instance of type `S`. -/
def Registry (C S : Type) : Type := String → Option (C → Except GoErr S)

/-- The empty registry (`make(map[string]Driver)`). -/
def Registry.empty (C S : Type) : Registry C S := fun _ => none

/-- `Register` from the objex package: inserts or replaces the mapping for
`name` (Go map assignment, last registration wins). -/
def Register {C S : Type} (name : String) (driver : C → Except GoErr S)
    (r : Registry C S) : Registry C S :=
  fun n => if n = name then some driver else r n

/-- `New` from the objex package: reads the configuration's driver name,
fails with `ErrUnknownDriver` when no constructor is registered under it, and
otherwise invokes the registered constructor on the configuration and returns
its result. -/
def New {C S : Type} (driverNameOf : DriverNameOf C) (r : Registry C S)
    (config : C) : Except GoErr S :=
  match r (driverNameOf config) with
  | none => .error .unknownDriver
  | some driver => driver config

/-- Association lookup in a backend's object table keyed by (bucket, key). -/
def lookupObj (files : List ((List Char × List Char) × List Nat))
    (bk : List Char × List Char) : Option (List Nat) :=
  match files with
  | [] => none
  | f :: rest => if f.1 = bk then some f.2 else lookupObj rest bk

/-- The filesystem adapter's backing state: the directories directly under
`basePath` (the buckets) and the files beneath them, keyed by
(bucket, relative path). -/
structure FSState where
  dirs : List (List Char)
  files : List ((List Char × List Char) × List Nat)
deriving DecidableEq, Repr

/-- `DeleteBucket` of the filesystem adapter
(`src/drivers/filesystem/filesystem.go`): `os.RemoveAll` on the bucket
directory, which removes the directory tree when present and reports no error
when the path does not exist, so the call never fails on an absent bucket. -/
def fsDeleteBucket (st : FSState) (name : List Char) : FSState × Option GoErr :=
  ({ dirs := st.dirs.filter (fun d => d ≠ name),
     files := st.files.filter (fun f => f.1.1 ≠ name) }, none)

/-- `ReadObject` of the filesystem adapter: resolve via `splitPathFS`, then
`os.ReadFile`; a missing file makes `os.ReadFile` return its native
not-exist error, which the adapter propagates verbatim. -/
def fsReadObject (st : FSState) (curBucket name : List Char) :
    Except GoErr (Option (List Nat)) :=
  match splitPathFS curBucket name with
  | .error e => .error e
  | .ok (b, k) =>
    match lookupObj st.files (b, k) with
    | some content => .ok (some content)
    | none => .error (.nativeE "ENOENT" "no such file or directory")

/-- The minio server state seen by the minio adapter's native client. -/
structure MinioState where
  buckets : List (List Char)
  objects : List ((List Char × List Char) × List Nat)
deriving DecidableEq, Repr

/-- The native `RemoveBucket` call of the minio client: deletes the bucket
when present; reports the S3 error response `NoSuchBucket` when absent. -/
def minioRemoveBucketNative (st : MinioState) (name : List Char) :
    MinioState × Option NativeErr :=
  if name ∈ st.buckets then
    ({ st with buckets := st.buckets.filter (fun b => b ≠ name) }, none)
  else
    (st, some ⟨"NoSuchBucket", "The specified bucket does not exist"⟩)

/-- `DeleteBucket` of the minio adapter (`src/unnamed/part_003`): an empty
name fails with `ErrInvalidBucketName`; a native error is normalised through
`ToStandardError`, a resulting `ErrBucketNotFound` is treated as success, and
any other normalised result is returned as is (a `nil` normalised error is
also returned, i.e. success). -/
def minioDeleteBucket (st : MinioState) (name : List Char) :
    MinioState × Option GoErr :=
  if name = [] then (st, some .invalidBucketName)
  else
    match minioRemoveBucketNative st name with
    | (st1, none) => (st1, none)
    | (st1, some e) =>
      match ToStandardError (some e) with
      | some .bucketNotFound => (st1, none)
      | stdErr => (st1, stdErr)

/-- The native `GetObject` call of the minio client: the object's bytes when
present, the S3 error response `NoSuchKey` when absent. -/
def minioGetObjectNative (st : MinioState) (b k : List Char) :
    Except NativeErr (List Nat) :=
  match lookupObj st.objects (b, k) with
  | some d => .ok d
  | none => .error ⟨"NoSuchKey", "The specified key does not exist."⟩

/-- `ReadObject` of the minio adapter (`src/unnamed/part_003`): an empty name
fails with `ErrInvalidObjectName`; the name is resolved through the shared
`SplitPath`; a native error is normalised, and a normalised
`ErrObjectNotFound` yields `(nil, nil)` — a nil byte slice with no error
(modelled as `.ok none`); a success reads the full content. The normalised
error is returned whether or not it is `nil`, so a swallowed native error
also yields `(nil, nil)`. -/
def minioReadObject (st : MinioState) (curBucket name : List Char) :
    Except GoErr (Option (List Nat)) :=
  if name = [] then .error .invalidObjectName
  else
    match SplitPath curBucket name with
    | .error e => .error e
    | .ok (b, k) =>
      match minioGetObjectNative st b k with
      | .ok data => .ok (some data)
      | .error e =>
        match ToStandardError (some e) with
        | some .objectNotFound => .ok none
        | none => .ok none
        | some stdErr => .error stdErr

/-- The S3 server state seen by the aws adapter's native client. -/
structure S3State where
  buckets : List (List Char)
  objects : List ((List Char × List Char) × List Nat)
deriving DecidableEq, Repr

/-- The adapter-local fields of the aws driver's `Store` that the claims
touch: the mutable current-bucket selector and the session region. -/
structure AwsStore where
  bucket : List Char
  region : String
deriving DecidableEq, Repr

/-- The native S3 `DeleteBucket` call: deletes the bucket when present;
reports the S3 error `NoSuchBucket` when absent. -/
def awsDeleteBucketNative (st : S3State) (name : List Char) :
    S3State × Option NativeErr :=
  if name ∈ st.buckets then
    ({ st with buckets := st.buckets.filter (fun b => b ≠ name) }, none)
  else
    (st, some ⟨"NoSuchBucket", "The specified bucket does not exist"⟩)

/-- `DeleteBucket` of the aws adapter (`src/drivers/aws/aws.go`): the native
client's error is returned verbatim, with no normalisation and no special
case for an absent bucket. -/
def awsDeleteBucket (st : S3State) (name : List Char) :
    S3State × Option GoErr :=
  match awsDeleteBucketNative st name with
  | (st1, none) => (st1, none)
  | (st1, some e) => (st1, some (.nativeE e.code e.msg))

/-- `ReadObject` of the aws adapter: the name is resolved through the shared
`SplitPath`; the downloader's native error for an absent object (`NoSuchKey`)
is returned verbatim as an error together with a nil byte slice. -/
def awsReadObject (st : S3State) (curBucket name : List Char) :
    Except GoErr (Option (List Nat)) :=
  match SplitPath curBucket name with
  | .error e => .error e
  | .ok (b, k) =>
    match lookupObj st.objects (b, k) with
    | some d => .ok (some d)
    | none => .error (.nativeE "NoSuchKey" "The specified key does not exist.")

/-- `ListObjects` of the aws adapter (`src/drivers/aws/aws.go`): when the
instance's bucket field is empty it is assigned the argument before listing;
the native `ListObjectsV2` then enumerates the keys of the (possibly updated)
current bucket, failing with `NoSuchBucket` when that bucket is absent. -/
def awsListObjects (store : AwsStore) (st : S3State) (bucketName : List Char) :
    AwsStore × Except GoErr (List (List Char)) :=
  let store1 := if store.bucket = [] then { store with bucket := bucketName } else store
  if store1.bucket ∈ st.buckets then
    (store1, .ok ((st.objects.filter (fun f => decide (f.1.1 = store1.bucket))).map
      (fun f => f.1.2)))
  else
    (store1, .error (.nativeE "NoSuchBucket" "The specified bucket does not exist"))

theorem toStandardError_noSuchKey :
    ToStandardError (some ⟨"NoSuchKey", "The specified key does not exist."⟩) =
      some .objectNotFound := rfl

theorem toStandardError_noSuchBucket :
    ToStandardError (some ⟨"NoSuchBucket", "The specified bucket does not exist"⟩) =
      some .bucketNotFound := rfl

/-- Claim C1: with an empty current bucket, `SplitPath` splits the path at
its first separator into exactly a bucket and a key, and fails with the
invalid-object-name error when there is no separator or either part is
empty; in particular `SplitPath("", "bucket/key") = ("bucket", "key")` while
`"onlykey"`, `"bucket/"`, `"/key"` and `""` all fail. -/
theorem splitPath_empty_bucket_spec :
    (∀ a b : List Char, '/' ∉ a → a ≠ [] → b ≠ [] →
      SplitPath [] (a ++ '/' :: b) = .ok (a, b)) ∧
    (∀ s : List Char, '/' ∉ s → SplitPath [] s = .error .invalidObjectName) ∧
    (∀ a b : List Char, '/' ∉ a → (a = [] ∨ b = []) →
      SplitPath [] (a ++ '/' :: b) = .error .invalidObjectName) ∧
    SplitPath [] ("bucket/key".toList) = .ok ("bucket".toList, "key".toList) ∧
    SplitPath [] ("onlykey".toList) = .error .invalidObjectName ∧
    SplitPath [] ("bucket/".toList) = .error .invalidObjectName ∧
    SplitPath [] ("/key".toList) = .error .invalidObjectName ∧
    SplitPath [] ([] : List Char) = .error .invalidObjectName := by
  refine ⟨?_, ?_, ?_, rfl, rfl, rfl, rfl, rfl⟩
  · intro a b ha hna hnb
    simp [SplitPath, splitFirst_append ha, hna, hnb]
  · intro s hs
    simp [SplitPath, splitFirst_of_not_mem hs]
  · intro a b ha he
    simp [SplitPath, splitFirst_append ha, he]

theorem splitPath_empty_bucket_spec_witness :
    SplitPath [] ("bkt".toList ++ '/' :: "k".toList) = .ok ("bkt".toList, "k".toList) :=
  splitPath_empty_bucket_spec.1 ("bkt".toList) ("k".toList)
    (by decide) (by decide) (by decide)

/-- Claim C2: with a non-empty current bucket every call to `SplitPath`
returns `(currentBucket, fullPath)` verbatim with no error, for every path
including the empty string and paths containing separators. -/
theorem splitPath_nonempty_bucket_verbatim (currentBucket fullPath : List Char)
    (h : currentBucket ≠ []) :
    SplitPath currentBucket fullPath = .ok (currentBucket, fullPath) := by
  simp [SplitPath, h]

theorem splitPath_nonempty_bucket_verbatim_witness :
    SplitPath ("b".toList) ("x/y/z".toList) = .ok ("b".toList, "x/y/z".toList) :=
  splitPath_nonempty_bucket_verbatim ("b".toList) ("x/y/z".toList) (by decide)

/-- Claim C3, counterexample: a non-nil native error that is not an S3 error
response (its `ToErrorResponse` code is empty, e.g. a transport failure) is
mapped by `ToStandardError` to `nil`, i.e. silently swallowed. -/
theorem toStandardError_swallows_empty_code :
    ToStandardError (some ⟨"", "connection reset by peer"⟩) = none := rfl

/-- Claim C3, amended: every non-nil native error whose S3 error-response
code is non-empty is mapped to a non-nil result that is either one of the
closed taxonomy kinds or the opaque wrapped error carrying the native code;
errors with an empty response code are the exception and map to `nil`. -/
theorem toStandardError_nonempty_code_not_swallowed (e : NativeErr)
    (h : e.code ≠ "") :
    ∃ t : GoErr, ToStandardError (some e) = some t ∧
      (t.isTaxonomy = true ∨ t = .wrapped e.code) := by
  simp only [ToStandardError]
  rw [if_neg h]
  by_cases h1 : e.code = "NoSuchBucket"
  · rw [if_pos h1]; exact ⟨.bucketNotFound, rfl, Or.inl rfl⟩
  rw [if_neg h1]
  by_cases h2 : e.code = "NoSuchKey"
  · rw [if_pos h2]; exact ⟨.objectNotFound, rfl, Or.inl rfl⟩
  rw [if_neg h2]
  by_cases h3 : e.code = "AccessDenied"
  · rw [if_pos h3]; exact ⟨.accessDenied, rfl, Or.inl rfl⟩
  rw [if_neg h3]
  by_cases h4 : e.code = "Conflict"
  · rw [if_pos h4]; exact ⟨.bucketNotEmpty, rfl, Or.inl rfl⟩
  rw [if_neg h4]
  by_cases h5 : e.code = "PreconditionFailed"
  · rw [if_pos h5]; exact ⟨.preconditionFailed, rfl, Or.inl rfl⟩
  rw [if_neg h5]
  by_cases h6 : e.code = "BucketAlreadyOwnedByYou"
  · rw [if_pos h6]; exact ⟨.bucketAlreadyExists, rfl, Or.inl rfl⟩
  rw [if_neg h6]
  exact ⟨.wrapped e.code, rfl, Or.inr rfl⟩

theorem toStandardError_nonempty_code_not_swallowed_witness :
    ∃ t : GoErr, ToStandardError (some ⟨"Teapot", "I am a teapot"⟩) = some t ∧
      (t.isTaxonomy = true ∨ t = .wrapped (NativeErr.mk "Teapot" "I am a teapot").code) :=
  toStandardError_nonempty_code_not_swallowed ⟨"Teapot", "I am a teapot"⟩ (by decide)

/-- Claim C4: the filesystem adapter's `splitPathFS` disagrees with the
shared `SplitPath` — on the input `("", "onlykey")` the shared resolver
fails with the invalid-object-name error while the filesystem adapter
succeeds with the root bucket `"."`. -/
theorem splitPathFS_diverges_from_splitPath :
    SplitPath [] ("onlykey".toList) = .error .invalidObjectName ∧
    splitPathFS [] ("onlykey".toList) = .ok (['.'], "onlykey".toList) :=
  ⟨rfl, rfl⟩

/-- Claim C5, counterexample: path resolution can succeed with an empty
component — `SplitPath` with a non-empty current bucket passes an empty path
through as an empty key, and `splitPathFS` with no current bucket accepts
`"/key"` with an empty bucket. -/
theorem splitPath_success_with_empty_component :
    SplitPath ("b".toList) [] = .ok ("b".toList, ([] : List Char)) ∧
    splitPathFS [] ("/key".toList) = .ok (([] : List Char), "key".toList) :=
  ⟨rfl, rfl⟩

/-- Claim C5, amended: when the current bucket is empty, a successful
`SplitPath` resolution returns a pair whose bucket and key are both
non-empty. -/
theorem splitPath_empty_bucket_components_nonempty (fullPath b k : List Char)
    (h : SplitPath [] fullPath = .ok (b, k)) : b ≠ [] ∧ k ≠ [] := by
  cases hsf : splitFirst '/' fullPath with
  | none => simp [SplitPath, hsf] at h
  | some p =>
    obtain ⟨a, c⟩ := p
    simp only [SplitPath, hsf, ne_eq, not_true_eq_false, if_false] at h
    by_cases he : a = [] ∨ c = []
    · simp [he] at h
    · simp only [he, if_false] at h
      rw [not_or] at he
      obtain ⟨h1, h2⟩ := Prod.mk.injEq .. ▸ Except.ok.inj h
      exact ⟨h1 ▸ he.1, h2 ▸ he.2⟩

theorem splitPath_empty_bucket_components_nonempty_witness :
    "b".toList ≠ ([] : List Char) ∧ "k".toList ≠ ([] : List Char) :=
  splitPath_empty_bucket_components_nonempty ("b/k".toList) ("b".toList) ("k".toList) rfl

/-- Claim C6: on a seekable stream of length `n` at position `p`,
`GetStreamSize` returns the same stream, the size `n - p` and no error; the
read position is `p` again afterwards, so a read after the probe yields
exactly the bytes a read without the probe would have; and a failing
seek-to-end yields the invalid-file error. -/
theorem getStreamSize_spec (s : SeekableStream) :
    (s.seekEndFails = false →
      GetStreamSize s = .ok (s, (s.data.length : Int) - (s.pos : Int))) ∧
    (s.seekEndFails = true → GetStreamSize s = .error .invalidFile) ∧
    (∀ s1 sz, GetStreamSize s = .ok (s1, sz) →
      s1.pos = s.pos ∧ readAll s1 = readAll s) := by
  obtain ⟨d, p, f⟩ := s
  refine ⟨?_, ?_, ?_⟩
  · intro h; subst h; rfl
  · intro h; subst h; rfl
  · intro s1 sz hok
    cases f with
    | true => exact absurd hok (by simp [GetStreamSize])
    | false =>
      have h1 : (Except.ok ((⟨d, p, false⟩ : SeekableStream),
          ((d.length : Int) - (p : Int))) : Except GoErr (SeekableStream × Int)) =
          .ok (s1, sz) := hok
      obtain ⟨hs, hsz⟩ := Prod.mk.injEq .. ▸ Except.ok.inj h1
      subst hs
      exact ⟨rfl, rfl⟩

theorem getStreamSize_spec_witness :
    GetStreamSize ⟨[1, 2, 3, 4], 1, false⟩ =
      .ok (⟨[1, 2, 3, 4], 1, false⟩, 3) :=
  (getStreamSize_spec ⟨[1, 2, 3, 4], 1, false⟩).1 rfl

/-- Claim C7: after registering a constructor under `"x"`, `New` on a
configuration whose driver name is `"x"` returns exactly the constructor's
result on that configuration; and `New` on a configuration whose driver name
has no registration fails with the unknown-driver error. -/
theorem registry_new_spec (C S : Type) (driverNameOf : DriverNameOf C)
    (r : Registry C S) (ctor : C → Except GoErr S) (config : C) :
    (driverNameOf config = "x" →
      New driverNameOf (Register "x" ctor r) config = ctor config) ∧
    (r (driverNameOf config) = none →
      New driverNameOf r config = .error .unknownDriver) := by
  constructor
  · intro h
    simp [New, Register, h]
  · intro h
    simp [New, h]

theorem registry_new_spec_witness :
    New (fun _ : Unit => "x")
      (Register "x" (fun _ => .ok 7) (Registry.empty Unit Nat)) () = .ok 7 ∧
    New (fun _ : Unit => "y") (Registry.empty Unit Nat) () =
      .error .unknownDriver :=
  ⟨(registry_new_spec Unit Nat (fun _ => "x") (Registry.empty Unit Nat)
      (fun _ => .ok 7) ()).1 rfl,
   (registry_new_spec Unit Nat (fun _ => "y") (Registry.empty Unit Nat)
      (fun _ => .ok 7) ()).2 rfl⟩

/-- Claim C8, counterexample: the aws adapter's `DeleteBucket` on an absent
bucket returns the native `NoSuchBucket` error verbatim instead of
succeeding. -/
theorem awsDeleteBucket_absent_errors :
    awsDeleteBucket ⟨[], []⟩ ("b".toList) =
      (⟨[], []⟩, some (.nativeE "NoSuchBucket" "The specified bucket does not exist")) :=
  rfl

/-- Claim C8, amended: `DeleteBucket` on an absent bucket succeeds for the
filesystem adapter (for every name) and for the minio adapter (for every
non-empty name), while the aws adapter propagates the native `NoSuchBucket`
error. -/
theorem deleteBucket_absent_spec (name : List Char)
    (fst : FSState) (mst : MinioState) (ast : S3State)
    (_hf : name ∉ fst.dirs) (hm : name ∉ mst.buckets) (ha : name ∉ ast.buckets)
    (hne : name ≠ []) :
    (fsDeleteBucket fst name).2 = none ∧
    (minioDeleteBucket mst name).2 = none ∧
    (awsDeleteBucket ast name).2 =
      some (.nativeE "NoSuchBucket" "The specified bucket does not exist") := by
  refine ⟨rfl, ?_, ?_⟩
  · simp [minioDeleteBucket, minioRemoveBucketNative, hm, hne,
      toStandardError_noSuchBucket]
  · simp [awsDeleteBucket, awsDeleteBucketNative, ha]

theorem deleteBucket_absent_spec_witness :
    (fsDeleteBucket ⟨[], []⟩ ("b".toList)).2 = none ∧
    (minioDeleteBucket ⟨[], []⟩ ("b".toList)).2 = none ∧
    (awsDeleteBucket ⟨[], []⟩ ("b".toList)).2 =
      some (.nativeE "NoSuchBucket" "The specified bucket does not exist") :=
  deleteBucket_absent_spec ("b".toList) ⟨[], []⟩ ⟨[], []⟩ ⟨[], []⟩
    (by decide) (by decide) (by decide) (by decide)

/-- Claim C9, counterexample: the filesystem adapter's `ReadObject` on an
absent object returns the native not-exist error from `os.ReadFile`, not a
nil result with no error. -/
theorem fsReadObject_absent_errors :
    fsReadObject ⟨[], []⟩ ("b".toList) ("k".toList) =
      .error (.nativeE "ENOENT" "no such file or directory") :=
  rfl

/-- Claim C9, amended: on a name that resolves to an absent object, the minio
adapter's `ReadObject` returns a nil byte slice with no error, while the
filesystem and aws adapters return the native not-found error. -/
theorem readObject_absent_spec
    (fst : FSState) (mst : MinioState) (ast : S3State)
    (curB name b k : List Char)
    (hsp : SplitPath curB name = .ok (b, k))
    (hspf : splitPathFS curB name = .ok (b, k))
    (hfs : lookupObj fst.files (b, k) = none)
    (hm : lookupObj mst.objects (b, k) = none)
    (ha : lookupObj ast.objects (b, k) = none)
    (hne : name ≠ []) :
    minioReadObject mst curB name = .ok none ∧
    fsReadObject fst curB name =
      .error (.nativeE "ENOENT" "no such file or directory") ∧
    awsReadObject ast curB name =
      .error (.nativeE "NoSuchKey" "The specified key does not exist.") := by
  refine ⟨?_, ?_, ?_⟩
  · simp [minioReadObject, hne, hsp, minioGetObjectNative, hm,
      toStandardError_noSuchKey]
  · simp [fsReadObject, hspf, hfs]
  · simp [awsReadObject, hsp, ha]

theorem readObject_absent_spec_witness :
    minioReadObject ⟨[], []⟩ ("b".toList) ("k".toList) = .ok none ∧
    fsReadObject ⟨[], []⟩ ("b".toList) ("k".toList) =
      .error (.nativeE "ENOENT" "no such file or directory") ∧
    awsReadObject ⟨[], []⟩ ("b".toList) ("k".toList) =
      .error (.nativeE "NoSuchKey" "The specified key does not exist.") :=
  readObject_absent_spec ⟨[], []⟩ ⟨[], []⟩ ⟨[], []⟩
    ("b".toList) ("k".toList) ("b".toList) ("k".toList)
    rfl rfl rfl rfl rfl (by decide)

/-- Claim C10: calling the aws adapter's `ListObjects(bucketName)` while the
instance's bucket context is unset sets the context to `bucketName` as a side
effect, and afterwards bare keys resolve against that bucket through
`SplitPath` even though `SetBucket` was never called. -/
theorem awsListObjects_sets_bucket (store : AwsStore) (st : S3State)
    (bucketName : List Char) (h : store.bucket = []) :
    ((awsListObjects store st bucketName).1).bucket = bucketName ∧
    (∀ key : List Char, bucketName ≠ [] →
      SplitPath ((awsListObjects store st bucketName).1).bucket key =
        .ok (bucketName, key)) := by
  have hb : (awsListObjects store st bucketName).1 = { store with bucket := bucketName } := by
    by_cases hmem : ({ store with bucket := bucketName } : AwsStore).bucket ∈ st.buckets
    · simp [awsListObjects, h, hmem]
    · simp [awsListObjects, h, hmem]
  refine ⟨by simp [hb], ?_⟩
  intro key hbn
  simp [hb, SplitPath, hbn]

theorem awsListObjects_sets_bucket_witness :
    ((awsListObjects ⟨[], "us-east-1"⟩ ⟨[], []⟩ ("b".toList)).1).bucket = "b".toList :=
  (awsListObjects_sets_bucket ⟨[], "us-east-1"⟩ ⟨[], []⟩ ("b".toList) rfl).1

end Objex
